import Mathlib

/-!
# Verification of the plexsync incremental reconciliation and aggregation engine

This file gives a shallow embedding, in Lean 4, of the core logic of
`plex_sync.py`: the fingerprint helpers, the per-entity normalization and
aggregation folds, the availability reconciler (`mark_unavailable`), the
movies sync pass (`process_movies`) together with its commit sequence, the
sequential-mode change-detection filter of `process_tvshows`, the artist
aggregation of `process_music`, and the schema migrator (`run_migrations`).

Modelling conventions:
* machine integers are `Nat` (sizes, durations and rating keys are
  non-negative in the source and never overflow a Python int);
* SQL tables are lists of row structures; `INSERT OR REPLACE` is a keyed
  upsert; `UPDATE ... WHERE c` is a pointwise map guarded by `c`;
* the MD5 digest of `calculate_media_hash` is modelled by the pre-image
  string itself: the digest is a pure deterministic function of that string,
  and no claim below depends on collisions;
* Python `round` on a half-integer rounds half to even; we model
  `round(s / 60)` by exact rational rounding half to even (the quotient is
  exactly representable at every tie);
* `float` display formatting (`human_readable_size`) is modelled by exact
  rational rounding to two decimals; no verified statement inspects it;
* fields that the source fills from the Plex API (summaries, genres, ...)
  are carried as `Option String` pass-through columns.
-/

namespace PlexSync

/-! ## Small pure helpers (plex_sync.py lines 80-265) -/

/-- Model of `calculate_media_hash` (line 80): deterministic fingerprint of the key
technical attributes.  The MD5 step is modelled by the joined string itself. -/
def calculate_media_hash (size_bytes : Nat) (duration : Nat)
    (codec resolution container title year : String) : String :=
  toString size_bytes ++ "|" ++ toString duration ++ "|" ++ codec ++ "|" ++
    resolution ++ "|" ++ container ++ "|" ++ title ++ "|" ++ year

/-- Python string interpolation of an optional value: `None` prints as `"None"`. -/
def optStr : Option String → String
  | none => "None"
  | some s => s

/-- Python string interpolation of an optional integer. -/
def optNatStr : Option Nat → String
  | none => "None"
  | some n => toString n

/-- Round `num / den` half to even (Python `round` on an exact quotient). -/
def roundHalfEven (num den : Nat) : Nat :=
  let q := num / den
  let r := num % den
  if 2 * r < den then q
  else if den < 2 * r then q + 1
  else if q % 2 = 0 then q else q + 1

/-- The minute count computed by `human_readable_duration` (line 149):
`total_seconds = ms // 1000`, `total_minutes = round(total_seconds / 60)`,
bumped to 1 when it is 0 and `total_seconds > 0`. -/
def human_readable_duration_minutes (total_milliseconds : Nat) : Nat :=
  let total_seconds := total_milliseconds / 1000
  let total_minutes := roundHalfEven total_seconds 60
  if total_minutes = 0 ∧ 0 < total_seconds then 1 else total_minutes

/-- Model of `human_readable_duration` (line 149): the rendered string. -/
def human_readable_duration (total_milliseconds : Nat) : String :=
  let m := human_readable_duration_minutes total_milliseconds
  toString m ++ (if m ≠ 1 then " mins" else " min")

/-- Exact two-decimal rendering of `total_bytes / den` (models Python
`f"{x:.2f}"`; the float formatting is approximated by exact rational
rounding half to even, which agrees on every value any claim touches). -/
def twoDecimals (total_bytes den : Nat) : String :=
  let hundredths := roundHalfEven (total_bytes * 100) den
  toString (hundredths / 100) ++ "." ++
    (if hundredths % 100 < 10 then "0" else "") ++ toString (hundredths % 100)

/-- Model of `human_readable_size` (line 140): TB/GB/MB thresholds at powers of ten. -/
def human_readable_size (total_bytes : Nat) : String :=
  if total_bytes ≥ 1000000000000 then twoDecimals total_bytes 1000000000000 ++ " TB"
  else if total_bytes ≥ 1000000000 then twoDecimals total_bytes 1000000000 ++ " GB"
  else twoDecimals total_bytes 1000000 ++ " MB"

/-- Model of `format_resolution` (line 158): `"4k" → "2160p"`, bare digits get `p`. -/
def format_resolution (resolution : Option String) : Option String :=
  match resolution with
  | none => none
  | some r =>
    let r := r.toLower
    if r = "4k" then some "2160p"
    else if r.length > 0 ∧ r.all Char.isDigit then some (r ++ "p")
    else some r

/-- Model of `format_codec` (line 169): uppercase, `None` passes through. -/
def format_codec (codec : Option String) : Option String :=
  match codec with
  | none => none
  | some c => some c.toUpper

/-- Model of `format_year_range` (line 258): drop falsy years, single year prints bare,
otherwise `"{min}-{max}"`, `None` when no child reports a year. -/
def format_year_range (years : List (Option Nat)) : Option String :=
  let valid_years := (years.filterMap id).filter (fun y => y ≠ 0)
  match valid_years with
  | [] => none
  | y :: ys =>
    if valid_years.all (fun z => z = y) then some (toString y)
    else
      let lo := ys.foldl min y
      let hi := ys.foldl max y
      some (toString lo ++ "-" ++ toString hi)

/-- Model of `extract_summary` (line 219): `None`/empty maps to `None`, else stripped. -/
def extract_summary (summary : Option String) : Option String :=
  match summary with
  | none => none
  | some s => if s = "" then none else some s.trim

/-- Model of `extract_genres` (line 175): CSV join of the non-empty tags, `None` when
the list is empty. -/
def extract_genres (genres : List String) : Option String :=
  if genres.isEmpty then none
  else some (", ".intercalate (genres.filter (fun g => g ≠ "")))

/-! ## Generic table rows and the reconciler (`mark_unavailable`, line 1057)

Every entity table of the store has an integer primary key (`ratingKey`),
an `available` flag and its remaining columns; the remaining columns are the
type parameter, so the reconciler below is the single SQL statement of
`mark_unavailable` applied uniformly to each of the seven tables. -/

structure TableRow (α : Type) where
  ratingKey : Nat
  available : Bool
  cols : α
deriving DecidableEq, Repr

/-- A row of the `search_fts` shadow index. -/
structure FtsRow where
  type : String
  ratingKey : Nat
  title : String
  summary : String
  year : Option Nat
  available : Bool
deriving DecidableEq, Repr

/-- Model of `UPDATE {table} SET available = 0 WHERE available = 1` (empty seen set)
or `... WHERE {key} NOT IN (seen) AND available = 1`. -/
def mark_unavailable_table {α : Type} (seen_keys : List Nat)
    (tbl : List (TableRow α)) : List (TableRow α) :=
  if seen_keys.isEmpty then
    tbl.map (fun r => if r.available then { r with available := false } else r)
  else
    tbl.map (fun r =>
      if r.available ∧ r.ratingKey ∉ seen_keys then { r with available := false } else r)

/-- The FTS branch of `mark_unavailable` (lines 1079-1098): flip the shadow
rows of the matching `type` that were not seen. -/
def mark_unavailable_fts (fts_type : String) (seen_keys : List Nat)
    (fts : List FtsRow) : List FtsRow :=
  if seen_keys.isEmpty then
    fts.map (fun r =>
      if r.type = fts_type ∧ r.available then { r with available := false } else r)
  else
    fts.map (fun r =>
      if r.type = fts_type ∧ r.ratingKey ∉ seen_keys ∧ r.available then
        { r with available := false } else r)

/-- The `type_map` of line 1082: only movies, shows and artists have a
shadow-index type. -/
def fts_type_map (table_name : String) : Option String :=
  if table_name = "movies" then some "movie"
  else if table_name = "tv_shows" then some "show"
  else if table_name = "artists" then some "artist"
  else none

/-- Model of `mark_unavailable` (line 1057): reconcile one table against the seen-id
set and propagate the flip into the shadow index when the table is directly
searchable. -/
def mark_unavailable {α : Type} (table_name : String) (seen_keys : List Nat)
    (tbl : List (TableRow α)) (fts : List FtsRow) :
    List (TableRow α) × List FtsRow :=
  let tbl' := mark_unavailable_table seen_keys tbl
  let fts' :=
    match fts_type_map table_name with
    | some t => mark_unavailable_fts t seen_keys fts
    | none => fts
  (tbl', fts')

/-- Keys of the currently available rows of a table. -/
def availKeys {α : Type} (tbl : List (TableRow α)) : List Nat :=
  (tbl.filter (fun r => r.available)).map (fun r => r.ratingKey)

/-! ## Keyed upserts (`INSERT OR REPLACE`, persistence layer) -/

/-- Model of `INSERT OR REPLACE` keyed by `ratingKey`: replace the conflicting row,
else append. -/
def upsertRow {α : Type} (tbl : List (TableRow α)) (r : TableRow α) :
    List (TableRow α) :=
  if tbl.any (fun x => x.ratingKey = r.ratingKey) then
    tbl.map (fun x => if x.ratingKey = r.ratingKey then r else x)
  else tbl ++ [r]

/-- Model of `executemany` of an `INSERT OR REPLACE` batch. -/
def upsertMany {α : Type} (tbl : List (TableRow α)) (rows : List (TableRow α)) :
    List (TableRow α) :=
  rows.foldl upsertRow tbl

/-- Model of `INSERT OR REPLACE` into `search_fts`, keyed by `(type, ratingKey)`. -/
def ftsUpsert (fts : List FtsRow) (r : FtsRow) : List FtsRow :=
  if fts.any (fun x => x.type = r.type ∧ x.ratingKey = r.ratingKey) then
    fts.map (fun x => if x.type = r.type ∧ x.ratingKey = r.ratingKey then r else x)
  else fts ++ [r]

/-- Batch upsert into the shadow index. -/
def ftsUpsertMany (fts : List FtsRow) (rows : List FtsRow) : List FtsRow :=
  rows.foldl ftsUpsert fts

/-! ## Raw catalog items (the plexapi objects the source reads) -/

/-- One media part (`media.parts[i]`): `part.size or 0` is pre-applied as
`size`, the container string is carried verbatim. -/
structure RawPart where
  size : Nat
  container : String
deriving DecidableEq, Repr

/-- One media descriptor (`item.media[i]`).  Movies and episodes read the
codec/resolution attributes and the first part; tracks read the media-level
`container` and `duration`. -/
structure RawMedia where
  audioCodec : Option String
  videoCodec : Option String
  videoResolution : Option String
  container : String
  duration : Option Nat
  parts : List RawPart
deriving DecidableEq, Repr

/-- Model of `movie.media[0] if movie.media else None`, then
`media.parts[0] if media.parts else None`: the playability checks of
`process_movies` (lines 1154-1163) and `process_episode` (lines 369-376). -/
def firstPlayable (media : List RawMedia) : Option (RawMedia × RawPart) :=
  match media with
  | [] => none
  | m :: _ =>
    match m.parts with
    | [] => none
    | p :: _ => some (m, p)

/-- A raw movie item as `process_movies` reads it.  Display metadata that the
`extract_*` helpers pull from the API object is carried as optional raw
fields; ratings are carried as opaque display strings (the source parses
floats, which this embedding does not model numerically). -/
structure RawMovie where
  ratingKey : Nat
  title : String
  year : Option Nat
  contentRating : Option String
  duration : Option Nat
  media : List RawMedia
  summary : Option String
  tagline : Option String
  genres : List String
  studio : Option String
  directors : List String
  writers : List String
  producers : List String
  actors : List String
  originallyAvailableAt : Option String
  rating : Option String
  audienceRating : Option String
deriving DecidableEq, Repr

/-- Model of `extract_directors` / `extract_writers` / `extract_producers` /
`extract_genres`-shaped CSV join: `None` for an empty list, else the join of
the non-empty tags. -/
def extract_tags (tags : List String) : Option String :=
  if tags.isEmpty then none
  else some (", ".intercalate (tags.filter (fun g => g ≠ "")))

/-- The columns of the `movies` table other than `ratingKey` and `available`
(the `movies_data` tuple of lines 1205-1232, in order). -/
structure MovieCols where
  title : String
  year : Option Nat
  contentRating : Option String
  duration : Nat
  durationHuman : Option String
  audioCodec : Option String
  container : String
  videoCodec : Option String
  videoResolution : Option String
  sizeBytes : Nat
  sizeHuman : String
  mediaHash : String
  summary : Option String
  tagline : Option String
  genres : Option String
  studio : Option String
  directors : Option String
  writers : Option String
  producers : Option String
  actors : Option String
  originallyAvailableAt : Option String
  rating : Option String
  audienceRating : Option String
  lastSeen : String
deriving DecidableEq, Repr

/-- A row of the `movies` table. -/
abbrev MovieRow := TableRow MovieCols

/-- The fingerprint computed for a movie (lines 1175-1178). -/
def movieHash (m : RawMovie) (med : RawMedia) (p : RawPart) : String :=
  calculate_media_hash p.size (m.duration.getD 0)
    (optStr (format_codec med.videoCodec))
    (optStr (format_resolution med.videoResolution))
    p.container m.title (optNatStr m.year)

/-- The `movies_data` tuple built for one playable movie (lines 1190-1232),
upserted with `available = 1` and the run's `current_time`. -/
def movieRow (current_time : String) (m : RawMovie) (med : RawMedia)
    (p : RawPart) : MovieRow :=
  { ratingKey := m.ratingKey
    available := true
    cols :=
      { title := m.title
        year := m.year
        contentRating := m.contentRating
        duration := m.duration.getD 0
        durationHuman :=
          if m.duration.getD 0 ≠ 0 then
            some (human_readable_duration (m.duration.getD 0))
          else none
        audioCodec := format_codec med.audioCodec
        container := p.container
        videoCodec := format_codec med.videoCodec
        videoResolution := format_resolution med.videoResolution
        sizeBytes := p.size
        sizeHuman := human_readable_size p.size
        mediaHash := movieHash m med p
        summary := extract_summary m.summary
        tagline := extract_summary m.tagline
        genres := extract_tags m.genres
        studio := m.studio
        directors := extract_tags m.directors
        writers := extract_tags m.writers
        producers := extract_tags m.producers
        actors := extract_tags m.actors
        originallyAvailableAt := m.originallyAvailableAt
        rating := m.rating
        audienceRating := m.audienceRating
        lastSeen := current_time } }

/-- The state of the movies library slice of the store: the `movies` table
plus the `search_fts` shadow index. -/
structure MoviesDB where
  movies : List MovieRow
  fts : List FtsRow
deriving DecidableEq, Repr

/-- The `existing_hashes` pre-fetch (lines 1145-1147):
`SELECT ratingKey, mediaHash FROM movies WHERE available = 1`. -/
def availHashes (tbl : List MovieRow) : List (Nat × String) :=
  (tbl.filter (fun r => r.available)).map (fun r => (r.ratingKey, r.cols.mediaHash))

/-- Python dict lookup on the pre-fetched hash map. -/
def lookupHash (m : List (Nat × String)) (k : Nat) : Option String :=
  match m.find? (fun p => p.1 = k) with
  | none => none
  | some p => some p.2

/-- The rating keys appended to `seen_rating_keys` by the movies loop: every
item that passes the media/part checks, appended before the unchanged-skip
test (line 1166). -/
def movieSeenKeys : List RawMovie → List Nat
  | [] => []
  | m :: rest =>
    match firstPlayable m.media with
    | none => movieSeenKeys rest
    | some _ => m.ratingKey :: movieSeenKeys rest

/-- The `movies_data` batch accumulated by the movies loop (lines 1149-1232):
unplayable items are skipped, and in sequential mode an item whose fresh
fingerprint equals the persisted one is skipped too (lines 1181-1183). -/
def buildMoviesData (useParallel : Bool) (existing : List (Nat × String))
    (current_time : String) : List RawMovie → List MovieRow
  | [] => []
  | m :: rest =>
    match firstPlayable m.media with
    | none => buildMoviesData useParallel existing current_time rest
    | some (med, p) =>
      if useParallel = false ∧ lookupHash existing m.ratingKey = some (movieHash m med p) then
        buildMoviesData useParallel existing current_time rest
      else
        movieRow current_time m med p ::
          buildMoviesData useParallel existing current_time rest

/-- The shadow-index row upserted for one movie (lines 1273-1276).  The
source passes `row[14]` — the tagline column — as the FTS `summary` value,
and always `available = 1`. -/
def movieFtsRow (r : MovieRow) : FtsRow :=
  { type := "movie"
    ratingKey := r.ratingKey
    title := r.cols.title
    summary := (r.cols.tagline).getD ""
    year := r.cols.year
    available := true }

/-- The sequence of durably committed states produced by one movies pass
(`process_movies`, lines 1102-1284), in commit order:
* empty catalog result: the two commits of `mark_unavailable` with an empty
  seen set (lines 1125-1128);
* no batch to insert (every playable item skipped as unchanged): the two
  commits of `mark_unavailable` with the seen set;
* otherwise: the batch-upsert commit of line 1268, then the commit inside
  `mark_unavailable` (line 1075) which also makes the pending shadow-index
  upserts of lines 1273-1276 durable, then the shadow-index availability
  commit (line 1098). -/
def movies_pass_commits (useParallel : Bool) (current_time : String)
    (items : List RawMovie) (db : MoviesDB) : List MoviesDB :=
  if items.isEmpty then
    let m1 : MoviesDB := { db with movies := mark_unavailable_table [] db.movies }
    let m2 : MoviesDB := { m1 with fts := mark_unavailable_fts "movie" [] m1.fts }
    [m1, m2]
  else
    let existing := if useParallel then [] else availHashes db.movies
    let data := buildMoviesData useParallel existing current_time items
    let seen := movieSeenKeys items
    if data.isEmpty then
      let m1 : MoviesDB := { db with movies := mark_unavailable_table seen db.movies }
      let m2 : MoviesDB := { m1 with fts := mark_unavailable_fts "movie" seen m1.fts }
      [m1, m2]
    else
      let s1 : MoviesDB := { db with movies := upsertMany db.movies data }
      let s2 : MoviesDB :=
        { movies := mark_unavailable_table seen s1.movies
          fts := ftsUpsertMany s1.fts (data.map movieFtsRow) }
      let s3 : MoviesDB := { s2 with fts := mark_unavailable_fts "movie" seen s2.fts }
      [s1, s2, s3]

/-- The final state of one movies pass: the last committed state. -/
def process_movies (useParallel : Bool) (current_time : String)
    (items : List RawMovie) (db : MoviesDB) : MoviesDB :=
  ((movies_pass_commits useParallel current_time items db).getLast?).getD db

/-- The `movies_data` batch of one pass, with the pass's pre-fetched hash
map filled in (empty in the high-concurrency mode). -/
def moviesBatch (useParallel : Bool) (current_time : String)
    (items : List RawMovie) (db : MoviesDB) : List MovieRow :=
  buildMoviesData useParallel (if useParallel then [] else availHashes db.movies)
    current_time items

/-! ## Episodes and seasons (`process_episode` line 361, `process_season`
line 449, and the per-season block of `process_tvshows` lines 1369-1424) -/

/-- A raw episode item as `process_episode` reads it. -/
structure RawEpisode where
  ratingKey : Nat
  index : Option Nat
  title : String
  year : Option Nat
  duration : Option Nat
  media : List RawMedia
  summary : Option String
  originallyAvailableAt : Option String
  directors : List String
  writers : List String
  actors : List String
  rating : Option String
  audienceRating : Option String
deriving DecidableEq, Repr

/-- The columns of the `episodes` table other than `ratingKey` and
`available` (the `episode_data` tuple of lines 410-435, in order; tuple
index 6 is `duration`, 12 is `sizeBytes`, 14 is `mediaHash`). -/
structure EpisodeCols where
  seasonRatingKey : Nat
  showRatingKey : Nat
  episodeNumber : Option Nat
  title : String
  year : Option Nat
  duration : Nat
  durationHuman : Option String
  audioCodec : Option String
  container : String
  videoCodec : Option String
  videoResolution : Option String
  sizeBytes : Nat
  sizeHuman : String
  mediaHash : String
  summary : Option String
  originallyAvailableAt : Option String
  directors : Option String
  writers : Option String
  actors : Option String
  rating : Option String
  audienceRating : Option String
  lastSeen : String
deriving DecidableEq, Repr

/-- A row of the `episodes` table. -/
abbrev EpisodeRow := TableRow EpisodeCols

/-- The dictionary returned by `process_episode` (lines 437-447): the row
plus the raw facts its parents aggregate over. -/
structure EpisodeResult where
  data : EpisodeRow
  duration : Nat
  size_bytes : Nat
  year : Option Nat
  video_resolution : Option String
  audio_codec : Option String
  video_codec : Option String
  container : String
  media_hash : String
deriving DecidableEq, Repr

/-- Model of `process_episode` (line 361): `None` when the item has no media or the
first media has no parts; otherwise the normalized record and fingerprint. -/
def process_episode (ep : RawEpisode) (season_rating_key show_rating_key : Nat)
    (current_time : String) : Option EpisodeResult :=
  match firstPlayable ep.media with
  | none => none
  | some (med, p) =>
    let episode_duration := ep.duration.getD 0
    let size_bytes := p.size
    let audio_codec := format_codec med.audioCodec
    let video_codec := format_codec med.videoCodec
    let video_resolution := format_resolution med.videoResolution
    let media_hash :=
      calculate_media_hash size_bytes episode_duration (optStr video_codec)
        (optStr video_resolution) p.container ep.title (optNatStr ep.year)
    some
      { data :=
          { ratingKey := ep.ratingKey
            available := true
            cols :=
              { seasonRatingKey := season_rating_key
                showRatingKey := show_rating_key
                episodeNumber := ep.index
                title := ep.title
                year := ep.year
                duration := episode_duration
                durationHuman :=
                  if episode_duration ≠ 0 then
                    some (human_readable_duration episode_duration)
                  else none
                audioCodec := audio_codec
                container := p.container
                videoCodec := video_codec
                videoResolution := video_resolution
                sizeBytes := size_bytes
                sizeHuman := human_readable_size size_bytes
                mediaHash := media_hash
                summary := extract_summary ep.summary
                originallyAvailableAt := ep.originallyAvailableAt
                directors := extract_tags ep.directors
                writers := extract_tags ep.writers
                actors := extract_tags ep.actors
                rating := ep.rating
                audienceRating := ep.audienceRating
                lastSeen := current_time } }
        duration := episode_duration
        size_bytes := size_bytes
        year := ep.year
        video_resolution := video_resolution
        audio_codec := audio_codec
        video_codec := video_codec
        container := p.container
        media_hash := media_hash }

/-- The episodes of a season that pass `process_episode`, in loop order
(items signalling missing media contribute nothing and processing of the
remaining siblings continues). -/
def seasonEpisodeResults (season_key show_key : Nat) (current_time : String) :
    List RawEpisode → List EpisodeResult
  | [] => []
  | e :: rest =>
    match process_episode e season_key show_key current_time with
    | none => seasonEpisodeResults season_key show_key current_time rest
    | some r => r :: seasonEpisodeResults season_key show_key current_time rest

/-- The mutable accumulators of the `process_season` episode loop
(lines 455-497). -/
structure SeasonAcc where
  size_bytes : Nat
  total_episodes : Nat
  total_duration : Nat
  years : List (Option Nat)
  video_resolutions : List (Option String)
  audio_codecs : List (Option String)
  video_codecs : List (Option String)
  containers : List String
  episodes_data : List EpisodeRow
deriving DecidableEq, Repr

/-- One iteration of the `process_season` episode loop (lines 482-491). -/
def seasonFoldStep (acc : SeasonAcc) (r : EpisodeResult) : SeasonAcc :=
  { size_bytes := acc.size_bytes + r.size_bytes
    total_episodes := acc.total_episodes + 1
    total_duration := acc.total_duration + r.duration
    years := acc.years ++ [r.year]
    video_resolutions := acc.video_resolutions ++ [r.video_resolution]
    audio_codecs := acc.audio_codecs ++ [r.audio_codec]
    video_codecs := acc.video_codecs ++ [r.video_codec]
    containers := acc.containers ++ [r.container]
    episodes_data := acc.episodes_data ++ [r.data] }

/-- The empty accumulators (lines 455-463). -/
def seasonAccInit : SeasonAcc :=
  { size_bytes := 0, total_episodes := 0, total_duration := 0, years := []
    video_resolutions := [], audio_codecs := [], video_codecs := []
    containers := [], episodes_data := [] }

/-- The accumulated season facts after the whole episode loop. -/
def seasonAcc (rs : List EpisodeResult) : SeasonAcc :=
  rs.foldl seasonFoldStep seasonAccInit

/-- Line 500: `total_duration // total_episodes if total_episodes > 0 else 0`
(also line 1410 and line 1444) — the guarded integer-truncated average. -/
def avg_duration (total_duration total_episodes : Nat) : Nat :=
  if total_episodes > 0 then total_duration / total_episodes else 0

/-- Model of `", ".join(sorted(set([x for x in l if x])))`: unique, ascending,
comma-joined values, dropping `None` and empty strings (lines 528-531). -/
def csvSortedSetOpt (l : List (Option String)) : String :=
  ", ".intercalate ((((l.filterMap id).filter (fun s => s ≠ "")).insertionSort
    (fun a b => a ≤ b)).dedup)

/-- Model of `", ".join(sorted(cs))` over a set of strings. -/
def csvSortedSet (l : List String) : String :=
  ", ".intercalate ((l.insertionSort (fun a b => a ≤ b)).dedup)

/-- A raw season item. -/
structure RawSeason where
  ratingKey : Nat
  seasonNumber : Option Nat
  title : Option String
  summary : Option String
  originallyAvailableAt : Option String
  episodes : List RawEpisode
deriving DecidableEq, Repr

/-- The columns of the `seasons` table other than the key and `available`
(the `season_data` tuple of lines 519-538; tuple index 3 is
`seasonTotalEpisode`, 4 `avgSeasonEpisodeDuration`, 5 its human form,
6 `seasonSizeBytes`, 7 `seasonSizeHuman`). -/
structure SeasonCols where
  showRatingKey : Nat
  seasonNumber : Option Nat
  seasonTotalEpisode : Nat
  avgSeasonEpisodeDuration : Nat
  avgSeasonEpisodeDurationHuman : Option String
  seasonSizeBytes : Nat
  seasonSizeHuman : String
  avgSeasonVideoResolution : String
  avgSeasonAudioCodec : String
  avgSeasonVideoCodec : String
  avgSeasonContainer : String
  yearRange : Option String
  summary : Option String
  title : Option String
  originallyAvailableAt : Option String
  lastSeen : String
deriving DecidableEq, Repr

/-- A row of the `seasons` table. -/
abbrev SeasonRow := TableRow SeasonCols

/-- The dictionary returned by `process_season` (lines 540-552). -/
structure SeasonResult where
  season_data : SeasonRow
  episodes_data : List EpisodeRow
  total_episodes : Nat
  total_duration : Nat
  size_bytes : Nat
  years : List (Option Nat)
  video_resolutions : List (Option String)
  audio_codecs : List (Option String)
  video_codecs : List (Option String)
  containers : List String
deriving DecidableEq, Repr

/-- Model of `process_season` (line 449): fold the processed episodes into the season
record (image downloading has no effect on any persisted value and is not
modelled). -/
def process_season (season : RawSeason) (show_rating_key : Nat)
    (current_time : String) : SeasonResult :=
  let acc := seasonAcc
    (seasonEpisodeResults season.ratingKey show_rating_key current_time season.episodes)
  let avg := avg_duration acc.total_duration acc.total_episodes
  { season_data :=
      { ratingKey := season.ratingKey
        available := true
        cols :=
          { showRatingKey := show_rating_key
            seasonNumber := season.seasonNumber
            seasonTotalEpisode := acc.total_episodes
            avgSeasonEpisodeDuration := avg
            avgSeasonEpisodeDurationHuman :=
              if avg > 0 then some (human_readable_duration avg) else none
            seasonSizeBytes := acc.size_bytes
            seasonSizeHuman := human_readable_size acc.size_bytes
            avgSeasonVideoResolution := csvSortedSetOpt acc.video_resolutions
            avgSeasonAudioCodec := csvSortedSetOpt acc.audio_codecs
            avgSeasonVideoCodec := csvSortedSetOpt acc.video_codecs
            avgSeasonContainer := csvSortedSetOpt (acc.containers.map some)
            yearRange := format_year_range acc.years
            summary := extract_summary season.summary
            title := match season.title with
              | none => none
              | some t => if t = "" then none else some t
            originallyAvailableAt := season.originallyAvailableAt
            lastSeen := current_time } }
    episodes_data := acc.episodes_data
    total_episodes := acc.total_episodes
    total_duration := acc.total_duration
    size_bytes := acc.size_bytes
    years := acc.years
    video_resolutions := acc.video_resolutions
    audio_codecs := acc.audio_codecs
    video_codecs := acc.video_codecs
    containers := acc.containers }

/-- The per-episode filter of `process_tvshows` (lines 1380-1393): every
episode's rating key is appended to the seen set, then, in sequential mode
only, an episode whose fingerprint equals the persisted one is dropped from
the batch. -/
def filterEpisodes (useParallel : Bool) (existing : List (Nat × String)) :
    List EpisodeRow → List Nat × List EpisodeRow
  | [] => ([], [])
  | ep :: rest =>
    let (ks, fs) := filterEpisodes useParallel existing rest
    if useParallel = false ∧ lookupHash existing ep.ratingKey = some ep.cols.mediaHash then
      (ep.ratingKey :: ks, fs)
    else (ep.ratingKey :: ks, ep :: fs)

/-- The season row actually persisted by `process_tvshows` (lines 1395-1417):
when the filtered batch is non-empty, the episode count, average duration and
total size are recomputed from the *filtered* episodes only; when it is
empty, the original `process_season` row (computed over all episodes) is kept. -/
def season_row_final (useParallel : Bool) (existing : List (Nat × String))
    (sr : SeasonResult) : SeasonRow :=
  let filtered := (filterEpisodes useParallel existing sr.episodes_data).2
  if filtered.isEmpty then sr.season_data
  else
    let n := filtered.length
    let dur := (filtered.map (fun e => e.cols.duration)).sum
    let size := (filtered.map (fun e => e.cols.sizeBytes)).sum
    let avg := avg_duration dur n
    { sr.season_data with
      cols :=
        { sr.season_data.cols with
          seasonTotalEpisode := n
          avgSeasonEpisodeDuration := avg
          avgSeasonEpisodeDurationHuman :=
            if avg > 0 then some (human_readable_duration avg) else none
          seasonSizeBytes := size
          seasonSizeHuman := human_readable_size size } }

/-- The episode seen keys contributed by one season in `process_tvshows`. -/
def seasonSeenEpisodeKeys (useParallel : Bool) (existing : List (Nat × String))
    (sr : SeasonResult) : List Nat :=
  (filterEpisodes useParallel existing sr.episodes_data).1

/-! ## Music (`process_album` line 1817 and the artist loop of
`process_music`, lines 1649-1737) -/

/-- A raw track item. -/
structure RawTrack where
  ratingKey : Nat
  index : Option Nat
  title : String
  media : List RawMedia
  summary : Option String
  originallyAvailableAt : Option String
  genres : List String
deriving DecidableEq, Repr

/-- A raw album item. -/
structure RawAlbum where
  ratingKey : Nat
  title : String
  year : Option Nat
  tracks : List RawTrack
  summary : Option String
  genres : List String
  originallyAvailableAt : Option String
  studio : Option String
deriving DecidableEq, Repr

/-- A raw artist item. -/
structure RawArtist where
  ratingKey : Nat
  title : String
  albums : List RawAlbum
  summary : Option String
  genres : List String
deriving DecidableEq, Repr

/-- Python falsiness of an optional string (`not track_container`). -/
def strFalsy : Option String → Bool
  | none => true
  | some s => s = ""

/-- The per-track media loop of `process_album` (lines 1861-1870): the local
accumulators after scanning the track's media descriptors.  `track_duration`
is reassigned by every media descriptor (the last one wins), the duration
and size sums accumulate across all of them, and `track_container` is set
from the media of the first part seen while it is still falsy. -/
structure TrackScan where
  containers : List String
  track_duration : Nat
  duration_sum : Nat
  size_sum : Nat
  track_container : Option String
deriving DecidableEq, Repr

/-- One iteration of the track media loop. -/
def trackScanStep (acc : TrackScan) (m : RawMedia) : TrackScan :=
  let d := m.duration.getD 0
  { containers := acc.containers ++ [m.container]
    track_duration := d
    duration_sum := acc.duration_sum + d
    size_sum := acc.size_sum + (m.parts.map (fun p => p.size)).sum
    track_container :=
      m.parts.foldl (fun c _ => if strFalsy c then some m.container else c)
        acc.track_container }

/-- Scan a track's media descriptors. -/
def trackScan (media : List RawMedia) : TrackScan :=
  media.foldl trackScanStep
    { containers := [], track_duration := 0, duration_sum := 0, size_sum := 0
      track_container := none }

/-- The columns of the `tracks` table other than the key and `available`
(the `tracks_data` tuple of lines 1885-1902; tuple index 10 is `mediaHash`). -/
structure TrackCols where
  albumRatingKey : Nat
  artistRatingKey : Nat
  title : String
  trackNumber : Option Nat
  duration : Nat
  durationHuman : Option String
  sizeBytes : Nat
  sizeHuman : String
  container : Option String
  mediaHash : String
  summary : Option String
  originallyAvailableAt : Option String
  genres : Option String
  lastSeen : String
deriving DecidableEq, Repr

/-- A row of the `tracks` table. -/
abbrev TrackRow := TableRow TrackCols

/-- The track row built by `process_album` (lines 1872-1902); the
fingerprint passes `None` for codec and resolution. -/
def trackRow (album_key artist_key : Nat) (album_year : Option Nat)
    (current_time : String) (tr : RawTrack) : TrackRow :=
  let sc := trackScan tr.media
  let media_hash :=
    calculate_media_hash sc.size_sum sc.track_duration "None" "None"
      (optStr sc.track_container) tr.title (optNatStr album_year)
  { ratingKey := tr.ratingKey
    available := true
    cols :=
      { albumRatingKey := album_key
        artistRatingKey := artist_key
        title := tr.title
        trackNumber := tr.index
        duration := sc.track_duration
        durationHuman :=
          if sc.track_duration ≠ 0 then
            some (human_readable_duration sc.track_duration)
          else none
        sizeBytes := sc.size_sum
        sizeHuman := human_readable_size sc.size_sum
        container := sc.track_container
        mediaHash := media_hash
        summary := extract_summary tr.summary
        originallyAvailableAt := tr.originallyAvailableAt
        genres := extract_tags tr.genres
        lastSeen := current_time } }

/-- The columns of the `albums` table other than the key and `available`
(the `album_data` tuple of lines 1913-1930). -/
structure AlbumCols where
  artistRatingKey : Nat
  title : String
  year : Option Nat
  tracks : Nat
  albumSizeBytes : Nat
  albumSizeHuman : String
  albumDuration : Nat
  albumDurationHuman : Option String
  albumContainers : String
  summary : Option String
  genres : Option String
  originallyAvailableAt : Option String
  studio : Option String
  lastSeen : String
deriving DecidableEq, Repr

/-- A row of the `albums` table. -/
abbrev AlbumRow := TableRow AlbumCols

/-- The album-level accumulators of the `process_album` track loop
(lines 1826-1830). -/
structure AlbumScan where
  album_size_bytes : Nat
  total_duration : Nat
  containers : List String
  track_count : Nat
  tracks_data : List TrackRow
deriving DecidableEq, Repr

/-- One iteration of the `process_album` track loop (lines 1851-1902). -/
def albumFoldStep (album_key artist_key : Nat) (album_year : Option Nat)
    (current_time : String) (acc : AlbumScan) (tr : RawTrack) : AlbumScan :=
  let sc := trackScan tr.media
  { album_size_bytes := acc.album_size_bytes + sc.size_sum
    total_duration := acc.total_duration + sc.duration_sum
    containers := acc.containers ++ sc.containers
    track_count := acc.track_count + 1
    tracks_data := acc.tracks_data ++ [trackRow album_key artist_key album_year current_time tr] }

/-- The dictionary returned by `process_album` together with the extra pair
`(album_size_bytes, total_duration)` (lines 1932-1937). -/
structure AlbumResult where
  tracks : Nat
  tracks_data : List TrackRow
  album_data : AlbumRow
deriving DecidableEq, Repr

/-- Model of `process_album` (line 1817): scan all tracks (a track with no media is
still counted and inserted, with zero size and duration) and build the album
aggregate row from the album-level accumulators. -/
def process_album (album : RawAlbum) (artist_rating_key : Nat)
    (current_time : String) : AlbumResult × Nat × Nat :=
  let acc := album.tracks.foldl
    (albumFoldStep album.ratingKey artist_rating_key album.year current_time)
    { album_size_bytes := 0, total_duration := 0, containers := []
      track_count := 0, tracks_data := [] }
  (⟨acc.track_count, acc.tracks_data,
    { ratingKey := album.ratingKey
      available := true
      cols :=
        { artistRatingKey := artist_rating_key
          title := album.title
          year := album.year
          tracks := acc.track_count
          albumSizeBytes := acc.album_size_bytes
          albumSizeHuman := human_readable_size acc.album_size_bytes
          albumDuration := acc.total_duration
          albumDurationHuman :=
            if acc.total_duration ≠ 0 then
              some (human_readable_duration acc.total_duration)
            else none
          albumContainers := csvSortedSet acc.containers
          summary := extract_summary album.summary
          genres := extract_tags album.genres
          originallyAvailableAt := album.originallyAvailableAt
          studio := album.studio
          lastSeen := current_time } }⟩,
   acc.album_size_bytes, acc.total_duration)

/-- The per-track filter of the artist loop (lines 1686-1700): in sequential
mode a track whose fingerprint equals the persisted one is dropped. -/
def filterTracks (useParallel : Bool) (existing : List (Nat × String)) :
    List TrackRow → List TrackRow
  | [] => []
  | tr :: rest =>
    if useParallel = false ∧ lookupHash existing tr.ratingKey = some tr.cols.mediaHash then
      filterTracks useParallel existing rest
    else tr :: filterTracks useParallel existing rest

/-- The columns of the `artists` table other than the key and `available`
(the `artists_data` tuple of lines 1725-1737). -/
structure ArtistCols where
  artistName : String
  totalAlbums : Nat
  totalTracks : Nat
  totalSizeBytes : Nat
  totalSizeHuman : String
  yearRange : Option String
  summary : Option String
  genres : Option String
  lastSeen : String
deriving DecidableEq, Repr

/-- A row of the `artists` table. -/
abbrev ArtistRow := TableRow ArtistCols

/-- What the album loop of `process_music` leaves behind for one artist: the
collected album and (filtered) track batches, and the values of the loop
variables of the *last* iteration, which are the only ones the post-loop
block of lines 1706-1714 can read. -/
structure ArtistLoopOut where
  albums_data : List AlbumRow
  tracks_data : List TrackRow
  last_album : Option (Nat × Nat × Option Nat)
deriving DecidableEq, Repr

/-- The album loop of `process_music` (lines 1676-1704): per album, process
it, filter its tracks, and extend the batches.  `last_album` records
`(album_size_bytes, len(filtered_tracks), album.year)` of the last
iteration. -/
def artistAlbumLoop (useParallel : Bool) (existing : List (Nat × String))
    (artist_key : Nat) (current_time : String) (albums : List RawAlbum) :
    ArtistLoopOut :=
  albums.foldl
    (fun acc album =>
      let r := process_album album artist_key current_time
      let filtered := filterTracks useParallel existing r.1.tracks_data
      { albums_data := acc.albums_data ++ [r.1.album_data]
        tracks_data := acc.tracks_data ++ filtered
        last_album := some (r.2.1, filtered.length, album.year) })
    { albums_data := [], tracks_data := [], last_album := none }

/-- The artist totals as the variables stand when the `artists_data` row is
built (lines 1663-1667 initialize them to zero; lines 1706-1714 — the block
sitting *after* the album loop and *inside* `if DOWNLOAD_IMAGES:` — add the
last iteration's album size, filtered track count, one album, and the last
album's year).  When images are enabled and the artist has no albums the
post-loop block reads an unbound loop variable (`NameError`), the artist-level
handler of line 1741 swallows it, and no artist row is produced: `none`. -/
def artist_totals (downloadImages : Bool) (lo : ArtistLoopOut) :
    Option (Nat × Nat × Nat × List (Option Nat)) :=
  if downloadImages then
    match lo.last_album with
    | none => none
    | some (sz, fc, yr) => some (1, fc, sz, [yr])
  else some (0, 0, 0, [])

/-- The artist row built by `process_music` for one artist (lines 1716-1737),
or `none` when the post-loop block raised. -/
def artistRowOf (downloadImages useParallel : Bool)
    (existing : List (Nat × String)) (current_time : String)
    (artist : RawArtist) : Option ArtistRow :=
  let lo := artistAlbumLoop useParallel existing artist.ratingKey current_time artist.albums
  match artist_totals downloadImages lo with
  | none => none
  | some (nAlbums, nTracks, szBytes, years) =>
    some
      { ratingKey := artist.ratingKey
        available := true
        cols :=
          { artistName := artist.title
            totalAlbums := nAlbums
            totalTracks := nTracks
            totalSizeBytes := szBytes
            totalSizeHuman := human_readable_size szBytes
            yearRange := format_year_range years
            summary := extract_summary artist.summary
            genres := extract_tags artist.genres
            lastSeen := current_time } }

/-- The artist totals that claim C4 asserts (the fold over *all* of the
artist's retained albums, independent of image downloading): total albums,
total retained tracks, total size, and the year list.  This definition
follows the claim's words, for comparison with `artist_totals`. -/
def artist_totals_claimed (useParallel : Bool) (existing : List (Nat × String))
    (artist_key : Nat) (current_time : String) (albums : List RawAlbum) :
    Nat × Nat × Nat × List (Option Nat) :=
  ((albums.map (fun a => process_album a artist_key current_time)).foldl
    (fun acc r =>
      (acc.1 + 1,
       acc.2.1 + (filterTracks useParallel existing r.1.tracks_data).length,
       acc.2.2.1 + r.2.1,
       acc.2.2.2 ++ [r.1.album_data.cols.year]))
    (0, 0, 0, []))

/-! ## Schema migrator (`get_schema_version` line 554,
`set_schema_version` line 565, `run_migrations` line 577) -/

/-- The persisted schema: the column list of each entity table, the index
names, whether the FTS5 shadow table exists, and the rows of the
`schema_version` table.  The runtime capability "this SQLite build has FTS5"
is the `fts_available` parameter of the migration chain. -/
structure Schema where
  movies_cols : List String
  tv_shows_cols : List String
  seasons_cols : List String
  episodes_cols : List String
  artists_cols : List String
  albums_cols : List String
  tracks_cols : List String
  indexes : List String
  has_search_fts : Bool
  versions : List Nat
deriving DecidableEq, Repr

/-- Model of `SCHEMA_VERSION = 3` (line 61). -/
def SCHEMA_VERSION : Nat := 3

/-- Model of `get_schema_version` (line 554): the largest stored version, 0 when the
table is empty or missing. -/
def get_schema_version (s : Schema) : Nat :=
  s.versions.foldr max 0

/-- Model of `INSERT OR REPLACE` into `schema_version` (primary key `version`):
set-insert. -/
def insertVersion (vs : List Nat) (v : Nat) : List Nat :=
  if v ∈ vs then vs else vs ++ [v]

/-- Model of `set_schema_version` (line 565). -/
def set_schema_version (s : Schema) (v : Nat) : Schema :=
  { s with versions := insertVersion s.versions v }

/-- Model of `ALTER TABLE ... ADD COLUMN` wrapped in the duplicate-column handler:
a no-op when the column already exists. -/
def addColumn (cols : List String) (c : String) : List String :=
  if c ∈ cols then cols else cols ++ [c]

/-- A sequence of guarded column additions (each in its own `try`). -/
def addColumns (cols : List String) (cs : List String) : List String :=
  cs.foldl addColumn cols

/-- Model of `CREATE INDEX IF NOT EXISTS`. -/
def createIndex (idxs : List String) (i : String) : List String :=
  if i ∈ idxs then idxs else idxs ++ [i]

/-- One table's block of migration 1 (lines 591-613): the `ALTER` and the
`CREATE INDEX` share one `try`, so when the column already exists the raised
duplicate-column error also skips the index statement. -/
def mig1_table (cols idxs : List String) (idx_name : String) :
    List String × List String :=
  if "mediaHash" ∈ cols then (cols, idxs)
  else (cols ++ ["mediaHash"], createIndex idxs idx_name)

/-- Migration 1 (lines 589-616): add `mediaHash` columns and hash indexes to
movies, episodes and tracks, then record version 1. -/
def migration1 (s : Schema) : Schema :=
  let m := mig1_table s.movies_cols s.indexes "idx_movies_hash"
  let e := mig1_table s.episodes_cols m.2 "idx_episodes_hash"
  let t := mig1_table s.tracks_cols e.2 "idx_tracks_hash"
  set_schema_version
    { s with movies_cols := m.1, episodes_cols := e.1, tracks_cols := t.1
             indexes := t.2 } 1

/-- Migration 2 (lines 619-737): add the extended metadata columns to every
table, each guarded, then record version 2. -/
def migration2 (s : Schema) : Schema :=
  set_schema_version
    { s with
      movies_cols := addColumns s.movies_cols
        ["summary", "tagline", "genres", "studio", "directors", "writers",
         "producers", "actors", "originallyAvailableAt", "rating", "audienceRating"]
      tv_shows_cols := addColumns s.tv_shows_cols
        ["summary", "genres", "studio", "actors", "originallyAvailableAt",
         "rating", "audienceRating"]
      seasons_cols := addColumns s.seasons_cols
        ["summary", "title", "originallyAvailableAt"]
      episodes_cols := addColumns s.episodes_cols
        ["summary", "originallyAvailableAt", "directors", "writers", "actors",
         "rating", "audienceRating"]
      artists_cols := addColumns s.artists_cols ["summary", "genres"]
      albums_cols := addColumns s.albums_cols
        ["summary", "genres", "originallyAvailableAt", "studio"]
      tracks_cols := addColumns s.tracks_cols
        ["summary", "originallyAvailableAt", "genres"] } 2

/-- Migration 3 (lines 740-782): create the FTS5 shadow table when the
runtime supports it; either way record version 3 (the capability-missing
branch marks the migration as applied and skips the optional feature). -/
def migration3 (fts_available : Bool) (s : Schema) : Schema :=
  if fts_available then set_schema_version { s with has_search_fts := true } 3
  else set_schema_version s 3

/-- Model of `run_migrations` (line 577): a no-op when the stored version is at or
above the target, otherwise the ordered chain of version-gated migrations. -/
def run_migrations (fts_available : Bool) (current_version target_version : Nat)
    (s : Schema) : Schema :=
  if current_version ≥ target_version then s
  else
    let s1 := if current_version < 1 then migration1 s else s
    let s2 := if current_version < 2 then migration2 s1 else s1
    let s3 := if current_version < 3 then migration3 fts_available s2 else s2
    s3

/-- One migration pass as `init_database` (line 1052) invokes it: read the
stored version, then run the chain toward `SCHEMA_VERSION`. -/
def migrate (fts_available : Bool) (s : Schema) : Schema :=
  run_migrations fts_available (get_schema_version s) SCHEMA_VERSION s

/-! ## Concrete fixtures used by the verification scenarios below -/

/-- A playable video media descriptor with one part (the codec and
resolution attributes are absent, as the source tolerates). -/
def exMedia (dur size : Nat) : RawMedia :=
  { audioCodec := none, videoCodec := none
    videoResolution := none, container := "mkv", duration := some dur
    parts := [{ size := size, container := "mkv" }] }

/-- A playable episode with the given key, duration and size. -/
def exEpisode (k dur size : Nat) : RawEpisode :=
  { ratingKey := k, index := some k, title := "e", year := some 2020
    duration := some dur, media := [exMedia dur size]
    summary := none, originallyAvailableAt := none
    directors := [], writers := [], actors := [], rating := none
    audienceRating := none }

/-- An episode with an empty media list (no playable media). -/
def badEpisode : RawEpisode :=
  { ratingKey := 55, index := some 5, title := "bad", year := some 2020
    duration := some 1000, media := []
    summary := none, originallyAvailableAt := none
    directors := [], writers := [], actors := [], rating := none
    audienceRating := none }

/-- The season of the aggregation scenario: episodes with durations
30, 45, 60 and sizes 100, 200, 300. -/
def exSeason : RawSeason :=
  { ratingKey := 10, seasonNumber := some 1, title := none, summary := none
    originallyAvailableAt := none
    episodes := [exEpisode 1 30 100, exEpisode 2 45 200, exEpisode 3 60 300] }

/-- The season of the unchanged-episode scenario: episode 1 will match the
persisted fingerprint, episode 2 will not. -/
def c3season : RawSeason :=
  { ratingKey := 10, seasonNumber := some 1, title := none, summary := none
    originallyAvailableAt := none
    episodes := [exEpisode 1 30 100, exEpisode 2 45 200] }

/-- The result of processing `c3season`. -/
def c3sr : SeasonResult := process_season c3season 99 "t"

/-- The persisted episode fingerprints of the unchanged-episode scenario:
episode 1's stored hash equals its freshly computed one. -/
def c3existing : List (Nat × String) :=
  [(1, calculate_media_hash 100 30 "None" "None" "mkv" "e" "2020")]

/-- A playable movie with the given key. -/
def mkMovie (k : Nat) : RawMovie :=
  { ratingKey := k, title := "m", year := some 2020, contentRating := none
    duration := some 60000, media := [exMedia 60000 5000]
    summary := none, tagline := none, genres := [], studio := none
    directors := [], writers := [], producers := [], actors := []
    originallyAvailableAt := none, rating := none, audienceRating := none }

/-- A movie with an empty media list (no playable media). -/
def badMovie : RawMovie :=
  { ratingKey := 66, title := "bad", year := some 2020, contentRating := none
    duration := some 60000, media := []
    summary := none, tagline := none, genres := [], studio := none
    directors := [], writers := [], producers := [], actors := []
    originallyAvailableAt := none, rating := none, audienceRating := none }

/-- The stored movie row for key `k`, as persisted by an earlier run. -/
def storedRow (k : Nat) : MovieRow :=
  movieRow "t0" (mkMovie k) (exMedia 60000 5000) { size := 5000, container := "mkv" }

/-- The stored state of the reconciliation scenario: rows 1, 2, 3 available. -/
def c1db : MoviesDB :=
  { movies := [storedRow 1, storedRow 2, storedRow 3], fts := [] }

/-- The run of the reconciliation scenario: the catalog returns items
2, 3, 4. -/
def c1items : List RawMovie := [mkMovie 2, mkMovie 3, mkMovie 4]

/-- The stored state of the commit-boundary scenario: row 1 available. -/
def c8db : MoviesDB := { movies := [storedRow 1], fts := [] }

/-- The run of the commit-boundary scenario: the catalog returns item 2
only, so row 1 must be reconciled to unavailable. -/
def c8items : List RawMovie := [mkMovie 2]

/-- A track with the given key and one media part of the given size and
duration. -/
def exTrack (k dur size : Nat) : RawTrack :=
  { ratingKey := k, index := some 1, title := "tr"
    media := [{ audioCodec := none, videoCodec := none, videoResolution := none
                container := "flac", duration := some dur
                parts := [{ size := size, container := "flac" }] }]
    summary := none, originallyAvailableAt := none, genres := [] }

/-- First album of the artist-aggregation scenario: 3 tracks, 100 bytes,
year 2020. -/
def c4album1 : RawAlbum :=
  { ratingKey := 100, title := "a1", year := some 2020
    tracks := [exTrack 11 5 10, exTrack 12 5 20, exTrack 13 5 70]
    summary := none, genres := [], originallyAvailableAt := none, studio := none }

/-- Second album of the artist-aggregation scenario: 4 tracks, 200 bytes,
year 2021. -/
def c4album2 : RawAlbum :=
  { ratingKey := 200, title := "a2", year := some 2021
    tracks := [exTrack 21 5 50, exTrack 22 5 50, exTrack 23 5 50, exTrack 24 5 50]
    summary := none, genres := [], originallyAvailableAt := none, studio := none }

/-- The artist of the artist-aggregation scenario. -/
def c4artist : RawArtist :=
  { ratingKey := 7, title := "art", albums := [c4album1, c4album2]
    summary := none, genres := [] }

/-- A schema with no tables populated and no stored version (a fresh store,
version 0). -/
def emptySchema : Schema :=
  { movies_cols := [], tv_shows_cols := [], seasons_cols := []
    episodes_cols := [], artists_cols := [], albums_cols := []
    tracks_cols := [], indexes := [], has_search_fts := false, versions := [] }

/-! ## Helper lemmas -/

theorem mem_availKeys {α : Type} (l : List (TableRow α)) (k : Nat) :
    k ∈ availKeys l ↔ ∃ r ∈ l, r.available = true ∧ r.ratingKey = k := by
  unfold availKeys
  simp only [List.mem_map, List.mem_filter]
  constructor
  · rintro ⟨r, ⟨hr, hav⟩, hk⟩
    exact ⟨r, hr, by simpa using hav, hk⟩
  · rintro ⟨r, hr, hav, hk⟩
    exact ⟨r, ⟨hr, by simpa using hav⟩, hk⟩

theorem markTable_nil_seen {α : Type} (tbl : List (TableRow α)) :
    mark_unavailable_table [] tbl =
      tbl.map (fun r => if r.available = true then { r with available := false } else r) :=
  rfl

theorem mem_availKeys_markTable {α : Type} (seen : List Nat)
    (tbl : List (TableRow α)) (k : Nat) :
    k ∈ availKeys (mark_unavailable_table seen tbl) ↔ k ∈ seen ∧ k ∈ availKeys tbl := by
  by_cases hs : seen.isEmpty
  · have hseen : seen = [] := by
      cases seen with
      | nil => rfl
      | cons a t => simp [List.isEmpty] at hs
    subst hseen
    rw [markTable_nil_seen, mem_availKeys, mem_availKeys]
    constructor
    · rintro ⟨r2, hr2, hav, _hk⟩
      rw [List.mem_map] at hr2
      obtain ⟨r, _hr, rfl⟩ := hr2
      by_cases h : r.available = true
      · rw [if_pos h] at hav; cases hav
      · rw [if_neg h] at hav; exact absurd hav h
    · rintro ⟨hk, _⟩
      cases hk
  · rw [mem_availKeys, mem_availKeys]
    unfold mark_unavailable_table
    rw [if_neg hs]
    constructor
    · rintro ⟨r2, hr2, hav, hk⟩
      rw [List.mem_map] at hr2
      obtain ⟨r, hr, rfl⟩ := hr2
      by_cases h : r.available = true ∧ r.ratingKey ∉ seen
      · rw [if_pos h] at hav; cases hav
      · rw [if_neg h] at hav hk
        push_neg at h
        exact ⟨hk ▸ (h hav), r, hr, hav, hk⟩
    · rintro ⟨hkseen, r, hr, hav, hk⟩
      refine ⟨_, List.mem_map_of_mem
        (fun r => if r.available = true ∧ r.ratingKey ∉ seen then
          { r with available := false } else r) hr, ?_⟩
      rw [if_neg (by rw [hk]; exact fun hc => hc.2 hkseen)]
      exact ⟨hav, hk⟩

theorem availKeys_markTable_empty_sub {α : Type} (tbl : List (TableRow α)) :
    ∀ r ∈ mark_unavailable_table [] tbl, r.available = false := by
  intro r hr
  rw [markTable_nil_seen, List.mem_map] at hr
  obtain ⟨x, _hx, rfl⟩ := hr
  by_cases h : x.available = true
  · rw [if_pos h]
  · rw [if_neg h]
    simpa using h

theorem human_minutes_reshape (d : Nat) :
    human_readable_duration_minutes d =
      if roundHalfEven (d / 1000) 60 = 0 ∧ 0 < d / 1000 then 1
      else roundHalfEven (d / 1000) 60 :=
  rfl

theorem seasonAcc_foldl (rs : List EpisodeResult) (acc : SeasonAcc) :
    ((rs.foldl seasonFoldStep acc).total_duration
        = acc.total_duration + (rs.map (fun r => r.duration)).sum) ∧
    ((rs.foldl seasonFoldStep acc).size_bytes
        = acc.size_bytes + (rs.map (fun r => r.size_bytes)).sum) ∧
    ((rs.foldl seasonFoldStep acc).total_episodes
        = acc.total_episodes + rs.length) := by
  induction rs generalizing acc with
  | nil => simp
  | cons r rest ih =>
    simp only [List.foldl_cons, List.map_cons, List.sum_cons, List.length_cons]
    obtain ⟨h1, h2, h3⟩ := ih (seasonFoldStep acc r)
    refine ⟨?_, ?_, ?_⟩
    · rw [h1]; simp only [seasonFoldStep]; omega
    · rw [h2]; simp only [seasonFoldStep]; omega
    · rw [h3]; simp only [seasonFoldStep]; omega

/-! ## Claim theorems -/

/-- C10 (corrected): the minute count rendered by `human_readable_duration`
is the half-to-even rounding of `(d // 1000) / 60`, bumped to a minimum of
1 minute whenever the whole-second count `d // 1000` is positive, i.e. for
every duration of at least 1000 ms; for sub-second positive durations
(0 < d < 1000) the rendered count is 0. -/
theorem c10_duration_minimum_amended (d : Nat) :
    (1000 ≤ d → 1 ≤ human_readable_duration_minutes d) ∧
    (d < 1000 → human_readable_duration_minutes d = 0) := by
  rw [human_minutes_reshape]
  constructor
  · intro h
    have hs : 0 < d / 1000 := Nat.div_pos h (by norm_num)
    split
    · exact le_refl 1
    · rename_i hcond
      push_neg at hcond
      by_cases hm : roundHalfEven (d / 1000) 60 = 0
      · have := hcond hm
        omega
      · omega
  · intro h
    have hs : d / 1000 = 0 := Nat.div_eq_of_lt h
    rw [hs]
    have hz : roundHalfEven 0 60 = 0 := rfl
    rw [hz]
    simp

/-- Witness for C10: a 60-second duration renders at least 1 minute, and the
500 ms duration renders 0 minutes. -/
theorem c10_duration_minimum_amended_witness :
    (1000 ≤ 60000 ∧ 1 ≤ human_readable_duration_minutes 60000) ∧
    (500 < 1000 ∧ human_readable_duration_minutes 500 = 0) :=
  ⟨⟨by norm_num, (c10_duration_minimum_amended 60000).1 (by norm_num)⟩,
   ⟨by norm_num, (c10_duration_minimum_amended 500).2 (by norm_num)⟩⟩

/-- C10 counterexample: the duration 500 ms is positive, yet the rendered
minute count is 0 (`"0 mins"`), because the minimum-1 guard of line 154
tests `total_seconds > 0`, not `total_milliseconds > 0`. -/
theorem c10_subsecond_zero_counterexample :
    0 < 500 ∧ human_readable_duration_minutes 500 = 0 ∧
    human_readable_duration 500 = "0 mins" :=
  ⟨by norm_num, rfl, rfl⟩

/-- C7 (confirmed): a parent aggregate's average duration is the
integer-truncated quotient of the summed child durations by the child count,
0 when there is no child (the division is guarded), and the total size is
the sum of the child sizes; concretely, episode durations `[30, 45, 60]` and
sizes `[100, 200, 300]` give average duration 45 and total size 600. -/
theorem c7_parent_aggregate_folds (rs : List EpisodeResult) :
    ((seasonAcc rs).size_bytes = (rs.map (fun r => r.size_bytes)).sum) ∧
    (avg_duration (seasonAcc rs).total_duration (seasonAcc rs).total_episodes
        = if rs.length = 0 then 0 else (rs.map (fun r => r.duration)).sum / rs.length) ∧
    ((process_season exSeason 99 "t").season_data.cols.avgSeasonEpisodeDuration = 45 ∧
     (process_season exSeason 99 "t").season_data.cols.seasonSizeBytes = 600) := by
  obtain ⟨h1, h2, h3⟩ := seasonAcc_foldl rs seasonAccInit
  have hinit : seasonAccInit.total_duration = 0 ∧ seasonAccInit.size_bytes = 0 ∧
      seasonAccInit.total_episodes = 0 := ⟨rfl, rfl, rfl⟩
  refine ⟨?_, ?_, by decide, by decide⟩
  · unfold seasonAcc
    rw [h2, hinit.2.1, Nat.zero_add]
  · unfold seasonAcc avg_duration
    rw [h1, h3, hinit.1, hinit.2.2, Nat.zero_add, Nat.zero_add]
    by_cases h : rs.length = 0
    · simp [h]
    · rw [if_neg h, if_pos (Nat.pos_of_ne_zero h)]

/-- C2 (confirmed): reconciling any entity table with an empty seen-id set
marks every row unavailable (total removal, not a no-op), and a movies pass
whose catalog fetch returns zero items leaves every row of the movies table
with `available = 0`. -/
theorem c2_empty_seen_total_removal :
    (∀ (α : Type) (table_name : String) (tbl : List (TableRow α))
        (fts : List FtsRow) (r : TableRow α),
      r ∈ (mark_unavailable table_name [] tbl fts).1 → r.available = false) ∧
    (∀ (useParallel : Bool) (current_time : String) (db : MoviesDB) (r : MovieRow),
      r ∈ (process_movies useParallel current_time [] db).movies →
        r.available = false) := by
  constructor
  · intro α name tbl fts r hr
    exact availKeys_markTable_empty_sub tbl r hr
  · intro p t db r hr
    have hpm : (process_movies p t [] db).movies = mark_unavailable_table [] db.movies := rfl
    rw [hpm] at hr
    exact availKeys_markTable_empty_sub db.movies r hr

/-- Witness for C2: with one stored available movie row and an empty catalog
result, the surviving row is unavailable. -/
theorem forall₂_map_self {α β : Type} (R : α → β → Prop) (f : α → β) (l : List α)
    (h : ∀ x ∈ l, R x (f x)) : List.Forall₂ R l (l.map f) := by
  induction l with
  | nil => exact List.Forall₂.nil
  | cons a t ih =>
    rw [List.map_cons]
    exact List.Forall₂.cons (h a (List.mem_cons_self a t))
      (ih fun x hx => h x (List.mem_cons_of_mem a hx))

theorem forall₂_self {α : Type} (R : α → α → Prop) (l : List α)
    (h : ∀ x ∈ l, R x x) : List.Forall₂ R l l := by
  have hm := forall₂_map_self R id l (by simpa using h)
  simpa using hm

theorem markFts_nil_seen (ty : String) (fts : List FtsRow) :
    mark_unavailable_fts ty [] fts =
      fts.map (fun r => if r.type = ty ∧ r.available = true then
        { r with available := false } else r) :=
  rfl

/-- C9 (confirmed): for every entity type and every seen-id set, the
reconciler is a pointwise map over the table: it deletes no row, preserves
every row's key and every non-availability column, leaves rows whose key is
in the seen set untouched, and otherwise either leaves the row unchanged or
flips `available` from 1 to 0; the mirrored flip in the `search_fts` shadow
index obeys the same frame. -/
theorem c9_reconciler_touches_only_availability {α : Type} (table_name : String)
    (seen : List Nat) (tbl : List (TableRow α)) (fts : List FtsRow) :
    List.Forall₂ (fun r r2 =>
        r2.ratingKey = r.ratingKey ∧ r2.cols = r.cols ∧
        (r.ratingKey ∈ seen → r2 = r) ∧
        (r2 = r ∨ (r.available = true ∧ r2.available = false)))
      tbl (mark_unavailable table_name seen tbl fts).1 ∧
    List.Forall₂ (fun r r2 =>
        r2.type = r.type ∧ r2.ratingKey = r.ratingKey ∧ r2.title = r.title ∧
        r2.summary = r.summary ∧ r2.year = r.year ∧
        (r.ratingKey ∈ seen → r2 = r) ∧
        (r2 = r ∨ (r.available = true ∧ r2.available = false)))
      fts (mark_unavailable table_name seen tbl fts).2 := by
  constructor
  · show List.Forall₂ _ tbl (mark_unavailable_table seen tbl)
    by_cases hs : seen.isEmpty
    · obtain rfl : seen = [] := by
        cases seen with
        | nil => rfl
        | cons a t => simp [List.isEmpty] at hs
      rw [markTable_nil_seen]
      apply forall₂_map_self
      intro x _hx
      by_cases h : x.available = true
      · rw [if_pos h]
        exact ⟨rfl, rfl, fun hk => absurd hk (List.not_mem_nil _), Or.inr ⟨h, rfl⟩⟩
      · rw [if_neg h]
        exact ⟨rfl, rfl, fun _ => rfl, Or.inl rfl⟩
    · unfold mark_unavailable_table
      rw [if_neg hs]
      apply forall₂_map_self
      intro x _hx
      by_cases h : x.available = true ∧ x.ratingKey ∉ seen
      · rw [if_pos h]
        exact ⟨rfl, rfl, fun hk => absurd hk h.2, Or.inr ⟨h.1, rfl⟩⟩
      · rw [if_neg h]
        exact ⟨rfl, rfl, fun _ => rfl, Or.inl rfl⟩
  · show List.Forall₂ _ fts
      (match fts_type_map table_name with
       | some ty => mark_unavailable_fts ty seen fts
       | none => fts)
    cases hmap : fts_type_map table_name with
    | none =>
      exact forall₂_self _ fts (fun x _ => ⟨rfl, rfl, rfl, rfl, rfl, fun _ => rfl, Or.inl rfl⟩)
    | some ty =>
      show List.Forall₂ _ fts (mark_unavailable_fts ty seen fts)
      by_cases hs : seen.isEmpty
      · obtain rfl : seen = [] := by
          cases seen with
          | nil => rfl
          | cons a t => simp [List.isEmpty] at hs
        rw [markFts_nil_seen]
        apply forall₂_map_self
        intro x _hx
        by_cases h : x.type = ty ∧ x.available = true
        · rw [if_pos h]
          exact ⟨rfl, rfl, rfl, rfl, rfl, fun hk => absurd hk (List.not_mem_nil _),
            Or.inr ⟨h.2, rfl⟩⟩
        · rw [if_neg h]
          exact ⟨rfl, rfl, rfl, rfl, rfl, fun _ => rfl, Or.inl rfl⟩
      · unfold mark_unavailable_fts
        rw [if_neg hs]
        apply forall₂_map_self
        intro x _hx
        by_cases h : x.type = ty ∧ x.ratingKey ∉ seen ∧ x.available = true
        · rw [if_pos h]
          exact ⟨rfl, rfl, rfl, rfl, rfl, fun hk => absurd hk h.2.1,
            Or.inr ⟨h.2.2, rfl⟩⟩
        · rw [if_neg h]
          exact ⟨rfl, rfl, rfl, rfl, rfl, fun _ => rfl, Or.inl rfl⟩

theorem foldrMax_append (vs : List Nat) (v : Nat) :
    ((vs ++ [v]).foldr max 0) = max (vs.foldr max 0) v := by
  induction vs with
  | nil => simp [Nat.max_comm]
  | cons a t ih =>
    rw [List.cons_append, List.foldr_cons, List.foldr_cons, ih]
    omega

theorem mem_le_foldrMax {vs : List Nat} {v : Nat} (h : v ∈ vs) :
    v ≤ vs.foldr max 0 := by
  induction vs with
  | nil => cases h
  | cons a t ih =>
    rw [List.foldr_cons]
    rcases List.mem_cons.mp h with rfl | h2
    · omega
    · have := ih h2
      omega

theorem foldrMax_insertVersion (vs : List Nat) (v : Nat) :
    (insertVersion vs v).foldr max 0 = max (vs.foldr max 0) v := by
  unfold insertVersion
  split
  · rename_i hmem
    have := mem_le_foldrMax hmem
    omega
  · exact foldrMax_append vs v

theorem getVersion_set (s : Schema) (v : Nat) :
    get_schema_version (set_schema_version s v) = max (get_schema_version s) v :=
  foldrMax_insertVersion s.versions v

theorem getVersion_migration1 (s : Schema) :
    get_schema_version (migration1 s) = max (get_schema_version s) 1 := by
  unfold get_schema_version
  rw [show (migration1 s).versions = insertVersion s.versions 1 by
    simp only [migration1, set_schema_version]]
  exact foldrMax_insertVersion s.versions 1

theorem getVersion_migration2 (s : Schema) :
    get_schema_version (migration2 s) = max (get_schema_version s) 2 := by
  unfold get_schema_version
  rw [show (migration2 s).versions = insertVersion s.versions 2 by
    simp only [migration2, set_schema_version]]
  exact foldrMax_insertVersion s.versions 2

theorem getVersion_migration3 (b : Bool) (s : Schema) :
    get_schema_version (migration3 b s) = max (get_schema_version s) 3 := by
  unfold get_schema_version
  rw [show (migration3 b s).versions = insertVersion s.versions 3 by
    unfold migration3
    split <;> simp only [set_schema_version]]
  exact foldrMax_insertVersion s.versions 3

theorem migrate_of_ge (b : Bool) (s : Schema)
    (h : SCHEMA_VERSION ≤ get_schema_version s) : migrate b s = s := by
  unfold migrate run_migrations
  rw [if_pos h]

theorem run_migrations_lt (b : Bool) (cv : Nat) (s : Schema) (h : cv < 3) :
    run_migrations b cv 3 s =
      migration3 b (if cv < 2 then migration2 (if cv < 1 then migration1 s else s)
                    else (if cv < 1 then migration1 s else s)) := by
  simp only [run_migrations]
  rw [if_neg (by omega), if_pos h]

theorem getVersion_migrate_of_lt (b : Bool) (s : Schema)
    (h : get_schema_version s < 3) :
    get_schema_version (migrate b s) = 3 := by
  rw [show migrate b s = run_migrations b (get_schema_version s) 3 s from rfl,
    run_migrations_lt b _ s h, getVersion_migration3]
  by_cases h2 : get_schema_version s < 2
  · rw [if_pos h2, getVersion_migration2]
    by_cases h1 : get_schema_version s < 1
    · rw [if_pos h1, getVersion_migration1]
      omega
    · rw [if_neg h1]
      omega
  · rw [if_neg h2, if_neg (by omega)]
    omega

/-- C5 (confirmed): applying the migration chain twice from a stored version
of 0 produces the same schema and version as applying it once; when the
stored version is already at or above the target the chain changes nothing;
and across any run the stored schema version never decreases. -/
theorem c5_migration_idempotent_monotone (fts_available : Bool) (s : Schema) :
    (get_schema_version s = 0 →
      migrate fts_available (migrate fts_available s) = migrate fts_available s) ∧
    (SCHEMA_VERSION ≤ get_schema_version s → migrate fts_available s = s) ∧
    get_schema_version s ≤ get_schema_version (migrate fts_available s) := by
  refine ⟨?_, migrate_of_ge fts_available s, ?_⟩
  · intro h0
    have hlt : get_schema_version s < 3 := by omega
    have h3 := getVersion_migrate_of_lt fts_available s hlt
    exact migrate_of_ge fts_available _ (by rw [h3]; exact Nat.le_refl 3)
  · by_cases hge : SCHEMA_VERSION ≤ get_schema_version s
    · rw [migrate_of_ge fts_available s hge]
    · have hlt : get_schema_version s < 3 := by
        unfold SCHEMA_VERSION at hge
        omega
      rw [getVersion_migrate_of_lt fts_available s hlt]
      omega

/-- Witness for C5: the fresh store has version 0, the double migration
equals the single one there, and a second pass over the migrated store is a
no-op. -/
theorem c5_migration_witness :
    (get_schema_version emptySchema = 0 ∧
      migrate true (migrate true emptySchema) = migrate true emptySchema) ∧
    (SCHEMA_VERSION ≤ get_schema_version (migrate true emptySchema) ∧
      migrate true (migrate true emptySchema) = migrate true emptySchema) :=
  ⟨⟨rfl, (c5_migration_idempotent_monotone true emptySchema).1 rfl⟩,
   ⟨by decide, (c5_migration_idempotent_monotone true (migrate true emptySchema)).2.1
      (by decide)⟩⟩

/-- C3 (code_bug): in sequential mode the seen-id set does receive every
episode's key (unchanged ones included), but the persisted season aggregates
are recomputed from the *filtered* episodes only (lines 1399-1414), so an
unchanged episode is not counted: with episode 1 unchanged (its stored
fingerprint matches) and episode 2 new, the persisted season row reports 1
episode of 200 bytes, while the aggregate over all currently available
episodes is 2 episodes of 300 bytes, contradicting the spec's requirement
that unchanged entities still count toward aggregation. -/
theorem c3_unchanged_episode_excluded_from_aggregates :
    seasonSeenEpisodeKeys false c3existing c3sr = [1, 2] ∧
    ((filterEpisodes false c3existing c3sr.episodes_data).2.map
        (fun e => e.ratingKey)) = [2] ∧
    c3sr.season_data.cols.seasonTotalEpisode = 2 ∧
    c3sr.season_data.cols.seasonSizeBytes = 300 ∧
    (season_row_final false c3existing c3sr).cols.seasonTotalEpisode = 1 ∧
    (season_row_final false c3existing c3sr).cols.seasonSizeBytes = 200 ∧
    (season_row_final false c3existing c3sr).cols.avgSeasonEpisodeDuration = 45 ∧
    (season_row_final false c3existing c3sr).cols.seasonTotalEpisode ≠
      c3sr.season_data.cols.seasonTotalEpisode :=
  ⟨rfl, rfl, rfl, rfl, rfl, rfl, rfl, by decide⟩

/-- C4 (code_bug): the artist totals are read from the post-album-loop block
that sits inside `if DOWNLOAD_IMAGES:` (lines 1706-1714), so they count only
the *last* album and only when image downloading is enabled: for an artist
with two albums (100 bytes / 3 tracks / 2020 and 200 bytes / 4 tracks /
2021) the persisted totals are 1 album, 4 tracks, 200 bytes with images on,
and 0 albums, 0 tracks, 0 bytes with images off — never the claimed fold
(2 albums, 7 tracks, 300 bytes) over all retained albums. -/
theorem c4_artist_totals_last_album_only :
    artist_totals true (artistAlbumLoop true [] 7 "t" [c4album1, c4album2])
      = some (1, 4, 200, [some 2021]) ∧
    artist_totals false (artistAlbumLoop true [] 7 "t" [c4album1, c4album2])
      = some (0, 0, 0, []) ∧
    artist_totals_claimed true [] 7 "t" [c4album1, c4album2]
      = (2, 7, 300, [some 2020, some 2021]) ∧
    (artistRowOf true true [] "t" c4artist).map (fun r => r.cols.totalAlbums)
      = some 1 ∧
    (artistRowOf false true [] "t" c4artist).map (fun r => r.cols.totalAlbums)
      = some 0 ∧
    artist_totals true (artistAlbumLoop true [] 7 "t" [c4album1, c4album2])
      ≠ some (artist_totals_claimed true [] 7 "t" [c4album1, c4album2]) :=
  ⟨rfl, rfl, rfl, rfl, rfl, by decide⟩

theorem firstPlayable_eq_none (media : List RawMedia)
    (h : media = [] ∨ ∃ m ms, media = m :: ms ∧ m.parts = []) :
    firstPlayable media = none := by
  rcases h with rfl | ⟨m, ms, rfl, hp⟩
  · rfl
  · simp only [firstPlayable, hp]

theorem seasonEpisodeResults_filterMap (sk sh : Nat) (t : String)
    (l : List RawEpisode) :
    seasonEpisodeResults sk sh t l
      = l.filterMap (fun e => process_episode e sk sh t) := by
  induction l with
  | nil => rfl
  | cons e rest ih =>
    rw [List.filterMap_cons]
    cases h : process_episode e sk sh t with
    | none => rw [seasonEpisodeResults, h, ih]
    | some r => rw [seasonEpisodeResults, h, ih]

theorem movieSeenKeys_filterMap (l : List RawMovie) :
    movieSeenKeys l = l.filterMap (fun m =>
      match firstPlayable m.media with
      | none => none
      | some _ => some m.ratingKey) := by
  induction l with
  | nil => rfl
  | cons m rest ih =>
    rw [List.filterMap_cons]
    cases h : firstPlayable m.media with
    | none => rw [movieSeenKeys, h, ih]
    | some pr => rw [movieSeenKeys, h, ih]

theorem buildMoviesData_filterMap (p : Bool) (ex : List (Nat × String))
    (t : String) (l : List RawMovie) :
    buildMoviesData p ex t l = l.filterMap (fun m =>
      match firstPlayable m.media with
      | none => none
      | some (med, pt) =>
        if p = false ∧ lookupHash ex m.ratingKey = some (movieHash m med pt) then
          none
        else some (movieRow t m med pt)) := by
  induction l with
  | nil => rfl
  | cons m rest ih =>
    rw [List.filterMap_cons]
    cases h : firstPlayable m.media with
    | none => rw [buildMoviesData, h, ih]
    | some pr =>
      obtain ⟨med, pt⟩ := pr
      by_cases hc : p = false ∧ lookupHash ex m.ratingKey = some (movieHash m med pt)
      · simp only [buildMoviesData, List.filterMap_cons, h, if_pos hc, ih]
      · simp only [buildMoviesData, List.filterMap_cons, h, if_neg hc, ih]

/-- C6 (confirmed): an item with no playable media, or whose first media
descriptor has no parts, is skipped entirely and is not an error: its
extraction yields no record, it is absent from the season batch (so it
contributes nothing to any parent aggregate), its rating key never enters
the movies seen-id set or batch, and the remaining sibling items are
processed exactly as if the item were not there. -/
theorem c6_missing_media_skipped (ep : RawEpisode) (mv : RawMovie)
    (hep : ep.media = [] ∨ ∃ m ms, ep.media = m :: ms ∧ m.parts = [])
    (hmv : mv.media = [] ∨ ∃ m ms, mv.media = m :: ms ∧ m.parts = []) :
    (∀ sk sh t, process_episode ep sk sh t = none) ∧
    (∀ sk sh t xs ys, seasonEpisodeResults sk sh t (xs ++ ep :: ys)
        = seasonEpisodeResults sk sh t (xs ++ ys)) ∧
    (∀ sk sh t xs ys,
        seasonAcc (seasonEpisodeResults sk sh t (xs ++ ep :: ys))
          = seasonAcc (seasonEpisodeResults sk sh t (xs ++ ys))) ∧
    (∀ xs ys, movieSeenKeys (xs ++ mv :: ys) = movieSeenKeys (xs ++ ys)) ∧
    (∀ p ex t xs ys, buildMoviesData p ex t (xs ++ mv :: ys)
        = buildMoviesData p ex t (xs ++ ys)) := by
  have hfpe : firstPlayable ep.media = none := firstPlayable_eq_none ep.media hep
  have hfpm : firstPlayable mv.media = none := firstPlayable_eq_none mv.media hmv
  have hpe : ∀ sk sh t, process_episode ep sk sh t = none := by
    intro sk sh t
    unfold process_episode
    rw [hfpe]
  have hres : ∀ sk sh t xs ys, seasonEpisodeResults sk sh t (xs ++ ep :: ys)
      = seasonEpisodeResults sk sh t (xs ++ ys) := by
    intro sk sh t xs ys
    rw [seasonEpisodeResults_filterMap, seasonEpisodeResults_filterMap,
      List.filterMap_append, List.filterMap_append, List.filterMap_cons,
      hpe sk sh t]
  refine ⟨hpe, hres, fun sk sh t xs ys => by rw [hres], ?_, ?_⟩
  · intro xs ys
    rw [movieSeenKeys_filterMap, movieSeenKeys_filterMap,
      List.filterMap_append, List.filterMap_append, List.filterMap_cons]
    rw [hfpm]
  · intro p ex t xs ys
    rw [buildMoviesData_filterMap, buildMoviesData_filterMap,
      List.filterMap_append, List.filterMap_append, List.filterMap_cons]
    rw [hfpm]

/-- Witness for C6: a concrete episode and movie with empty media lists are
skipped, leave the sibling batch intact, and stay out of the seen set. -/
theorem c6_missing_media_skipped_witness :
    process_episode badEpisode 10 99 "t" = none ∧
    seasonEpisodeResults 10 99 "t" ([exEpisode 1 30 100] ++ badEpisode :: [exEpisode 2 45 200])
      = seasonEpisodeResults 10 99 "t" ([exEpisode 1 30 100] ++ [exEpisode 2 45 200]) ∧
    movieSeenKeys ([mkMovie 2] ++ badMovie :: []) = movieSeenKeys ([mkMovie 2] ++ []) :=
  have h := c6_missing_media_skipped badEpisode badMovie (Or.inl rfl) (Or.inl rfl)
  ⟨h.1 10 99 "t", h.2.1 10 99 "t" [exEpisode 1 30 100] [exEpisode 2 45 200],
    h.2.2.2.1 [mkMovie 2] []⟩

theorem mem_availKeys_upsertRow_of_ne {α : Type} (tbl : List (TableRow α))
    (r : TableRow α) (k : Nat) (hne : k ≠ r.ratingKey) :
    k ∈ availKeys (upsertRow tbl r) ↔ k ∈ availKeys tbl := by
  rw [mem_availKeys, mem_availKeys]
  unfold upsertRow
  split
  · constructor
    · rintro ⟨r2, hr2, hav, hk⟩
      rw [List.mem_map] at hr2
      obtain ⟨x, hx, rfl⟩ := hr2
      by_cases h : x.ratingKey = r.ratingKey
      · rw [if_pos h] at hav hk
        exact absurd hk.symm hne
      · rw [if_neg h] at hav hk
        exact ⟨x, hx, hav, hk⟩
    · rintro ⟨x, hx, hav, hk⟩
      have h : ¬ x.ratingKey = r.ratingKey := by
        rw [hk]; exact hne
      refine ⟨_, List.mem_map_of_mem
        (fun x => if x.ratingKey = r.ratingKey then r else x) hx, ?_⟩
      rw [if_neg h]
      exact ⟨hav, hk⟩
  · constructor
    · rintro ⟨r2, hr2, hav, hk⟩
      rcases List.mem_append.mp hr2 with hmem | hmem
      · exact ⟨r2, hmem, hav, hk⟩
      · rw [List.mem_singleton] at hmem
        subst hmem
        exact absurd hk.symm hne
    · rintro ⟨x, hx, hav, hk⟩
      exact ⟨x, List.mem_append_left _ hx, hav, hk⟩

theorem self_mem_availKeys_upsertRow {α : Type} (tbl : List (TableRow α))
    (r : TableRow α) (hav : r.available = true) :
    r.ratingKey ∈ availKeys (upsertRow tbl r) := by
  rw [mem_availKeys]
  unfold upsertRow
  split
  · rename_i hany
    rw [List.any_eq_true] at hany
    obtain ⟨x, hx, hkey⟩ := hany
    have hk : x.ratingKey = r.ratingKey := by simpa using hkey
    refine ⟨r, ?_, hav, rfl⟩
    rw [List.mem_map]
    exact ⟨x, hx, by rw [if_pos hk]⟩
  · exact ⟨r, List.mem_append_right _ (List.mem_singleton.mpr rfl), hav, rfl⟩

theorem mem_availKeys_upsertMany {α : Type} (tbl : List (TableRow α))
    (rows : List (TableRow α)) (hall : ∀ x ∈ rows, x.available = true) (k : Nat)
    (hk : k ∈ availKeys tbl ∨ k ∈ rows.map (fun x => x.ratingKey)) :
    k ∈ availKeys (upsertMany tbl rows) := by
  induction rows generalizing tbl with
  | nil =>
    rcases hk with h | h
    · simpa [upsertMany] using h
    · simp at h
  | cons r rest ih =>
    have hstep : k ∈ availKeys (upsertRow tbl r) ∨ k ∈ rest.map (fun x => x.ratingKey) := by
      rcases hk with h | h
      · by_cases he : k = r.ratingKey
        · subst he
          exact Or.inl (self_mem_availKeys_upsertRow tbl r (hall r (List.mem_cons_self r rest)))
        · exact Or.inl ((mem_availKeys_upsertRow_of_ne tbl r k he).mpr h)
      · rw [List.map_cons, List.mem_cons] at h
        rcases h with he | h
        · subst he
          exact Or.inl (self_mem_availKeys_upsertRow tbl r (hall r (List.mem_cons_self r rest)))
        · exact Or.inr h
    have hm : upsertMany tbl (r :: rest) = upsertMany (upsertRow tbl r) rest := rfl
    rw [hm]
    exact ih (upsertRow tbl r) (fun x hx => hall x (List.mem_cons_of_mem r hx)) hstep

theorem buildMoviesData_available (p : Bool) (ex : List (Nat × String))
    (t : String) (items : List RawMovie) :
    ∀ r ∈ buildMoviesData p ex t items, r.available = true := by
  intro r hr
  rw [buildMoviesData_filterMap, List.mem_filterMap] at hr
  obtain ⟨m, _hm, hf⟩ := hr
  rcases hfp : firstPlayable m.media with _ | ⟨med, pt⟩
  · rw [hfp] at hf; cases hf
  · rw [hfp] at hf
    have hf2 : (if p = false ∧ lookupHash ex m.ratingKey = some (movieHash m med pt)
        then none else some (movieRow t m med pt)) = some r := hf
    by_cases hc : p = false ∧ lookupHash ex m.ratingKey = some (movieHash m med pt)
    · rw [if_pos hc] at hf2; cases hf2
    · rw [if_neg hc] at hf2
      obtain rfl : movieRow t m med pt = r := Option.some.inj hf2
      rfl

theorem lookupHash_availHashes {tbl : List MovieRow} {k : Nat} {h : String}
    (hl : lookupHash (availHashes tbl) k = some h) : k ∈ availKeys tbl := by
  unfold lookupHash at hl
  rcases hf : (availHashes tbl).find? (fun pr => pr.1 = k) with _ | pr
  · rw [hf] at hl; cases hl
  · have hmem := List.mem_of_find?_eq_some hf
    have hkey : pr.1 = k := by
      have := List.find?_some hf
      simpa using this
    unfold availHashes at hmem
    rw [List.mem_map] at hmem
    obtain ⟨r, hr, hpr⟩ := hmem
    rw [mem_availKeys]
    refine ⟨r, (List.mem_filter.mp hr).1, ?_, ?_⟩
    · have := (List.mem_filter.mp hr).2
      simpa using this
    · rw [← hkey, ← hpr]

theorem seen_mem_data_or_stored (p : Bool) (ex : List (Nat × String)) (t : String)
    (items : List RawMovie) (k : Nat) (hk : k ∈ movieSeenKeys items) :
    k ∈ (buildMoviesData p ex t items).map (fun r => r.ratingKey) ∨
      ∃ hsh, lookupHash ex k = some hsh := by
  rw [movieSeenKeys_filterMap, List.mem_filterMap] at hk
  obtain ⟨m, hm, hf⟩ := hk
  rcases hfp : firstPlayable m.media with _ | ⟨med, pt⟩
  · rw [hfp] at hf; cases hf
  · rw [hfp] at hf
    have hf2 : some m.ratingKey = some k := hf
    obtain rfl : m.ratingKey = k := Option.some.inj hf2
    by_cases hc : p = false ∧ lookupHash ex m.ratingKey = some (movieHash m med pt)
    · exact Or.inr ⟨movieHash m med pt, hc.2⟩
    · left
      rw [buildMoviesData_filterMap, List.mem_map]
      refine ⟨movieRow t m med pt, ?_, rfl⟩
      rw [List.mem_filterMap]
      refine ⟨m, hm, ?_⟩
      rw [hfp]
      show (if p = false ∧ lookupHash ex m.ratingKey = some (movieHash m med pt) then none
          else some (movieRow t m med pt)) = some (movieRow t m med pt)
      rw [if_neg hc]

theorem seen_implies_stored_or_data (p : Bool) (t : String) (items : List RawMovie)
    (db : MoviesDB) (k : Nat) (hk : k ∈ movieSeenKeys items) :
    k ∈ (buildMoviesData p (if p then [] else availHashes db.movies) t items).map
        (fun r => r.ratingKey) ∨ k ∈ availKeys db.movies := by
  rcases seen_mem_data_or_stored p (if p then [] else availHashes db.movies) t items k hk
    with h | ⟨hsh, hst⟩
  · exact Or.inl h
  · right
    by_cases hp : p
    · rw [if_pos hp] at hst
      simp [lookupHash] at hst
    · rw [if_neg hp] at hst
      exact lookupHash_availHashes hst

theorem process_movies_eq (p : Bool) (t : String) (items : List RawMovie)
    (db : MoviesDB) :
    process_movies p t items db =
      if items.isEmpty then
        { movies := mark_unavailable_table [] db.movies
          fts := mark_unavailable_fts "movie" [] db.fts }
      else if (buildMoviesData p (if p then [] else availHashes db.movies) t items).isEmpty then
        { movies := mark_unavailable_table (movieSeenKeys items) db.movies
          fts := mark_unavailable_fts "movie" (movieSeenKeys items) db.fts }
      else
        { movies := mark_unavailable_table (movieSeenKeys items)
            (upsertMany db.movies
              (buildMoviesData p (if p then [] else availHashes db.movies) t items))
          fts := mark_unavailable_fts "movie" (movieSeenKeys items)
            (ftsUpsertMany db.fts
              ((buildMoviesData p (if p then [] else availHashes db.movies) t items).map
                movieFtsRow)) } := by
  simp only [process_movies, movies_pass_commits]
  split
  · rfl
  · split <;> split <;> rfl

/-- C1 (confirmed): after a completed movies pass, a key is among the
available rows of the movies table exactly when it is in the pass's seen-id
set; concretely, with stored available rows `{1, 2, 3}` and a run that sees
`{2, 3, 4}`, row 1 flips to `available = 0`, row 4 is upserted with
`available = 1`, and rows 2 and 3 remain available. -/
theorem c1_available_rows_are_seen_rows (p : Bool) (t : String)
    (items : List RawMovie) (db : MoviesDB) (k : Nat) :
    (k ∈ availKeys (process_movies p t items db).movies ↔ k ∈ movieSeenKeys items) ∧
    (process_movies true "t1" c1items c1db).movies.map
        (fun r => (r.ratingKey, r.available)) = [(1, false), (2, true), (3, true), (4, true)] := by
  refine ⟨?_, by decide⟩
  rw [process_movies_eq]
  by_cases hne : items.isEmpty
  · rw [if_pos hne]
    obtain rfl : items = [] := by
      cases items with
      | nil => rfl
      | cons a rest => simp [List.isEmpty] at hne
    show k ∈ availKeys (mark_unavailable_table [] db.movies) ↔ k ∈ movieSeenKeys []
    rw [mem_availKeys_markTable]
    simp [movieSeenKeys]
  · rw [if_neg hne]
    by_cases hde : (buildMoviesData p (if p then [] else availHashes db.movies) t items).isEmpty
    · rw [if_pos hde]
      show k ∈ availKeys (mark_unavailable_table (movieSeenKeys items) db.movies)
          ↔ k ∈ movieSeenKeys items
      rw [mem_availKeys_markTable]
      constructor
      · exact fun h => h.1
      · intro hk
        refine ⟨hk, ?_⟩
        rcases seen_implies_stored_or_data p t items db k hk with h | h
        · obtain hnil : buildMoviesData p (if p then [] else availHashes db.movies) t items = [] := by
            rcases hbd : buildMoviesData p (if p then [] else availHashes db.movies) t items
              with _ | ⟨a, rest⟩
            · rfl
            · rw [hbd] at hde
              cases hde
          rw [hnil] at h
          cases h
        · exact h
    · rw [if_neg hde]
      show k ∈ availKeys (mark_unavailable_table (movieSeenKeys items)
          (upsertMany db.movies
            (buildMoviesData p (if p then [] else availHashes db.movies) t items)))
        ↔ k ∈ movieSeenKeys items
      rw [mem_availKeys_markTable]
      constructor
      · exact fun h => h.1
      · intro hk
        refine ⟨hk, ?_⟩
        have hall := buildMoviesData_available p (if p then [] else availHashes db.movies) t items
        rcases seen_implies_stored_or_data p t items db k hk with h | h
        · exact mem_availKeys_upsertMany _ _ hall k (Or.inr h)
        · exact mem_availKeys_upsertMany _ _ hall k (Or.inl h)

/-- C8 counterexample: the movies pass commits three times, and after the
first commit (line 1268) the batch upsert is durable — row 2 is present and
available — while the availability reconciliation has not run: the stale,
unseen row 1 is still `available = 1`.  A failure at that point therefore
leaves the upsert committed without the reconciliation, contradicting the
claimed single transactional boundary.  The completed pass does reconcile
row 1. -/
theorem c8_commit_boundary_counterexample :
    (movies_pass_commits true "t1" c8items c8db).length = 3 ∧
    ((movies_pass_commits true "t1" c8items c8db).headD c8db).movies.map
        (fun r => (r.ratingKey, r.available)) = [(1, true), (2, true)] ∧
    1 ∈ availKeys ((movies_pass_commits true "t1" c8items c8db).headD c8db).movies ∧
    1 ∉ movieSeenKeys c8items ∧
    (process_movies true "t1" c8items c8db).movies.map
        (fun r => (r.ratingKey, r.available)) = [(1, false), (2, true)] :=
  ⟨rfl, rfl, by decide, by decide, rfl⟩

/-- C8 (corrected): when the movies pass has a non-empty batch, the batch
upsert is committed first, by itself; the table's availability
reconciliation only becomes durable with the second commit and the
shadow-index availability flip with the third, so the upsert and the
reconciliation do not share one transactional boundary; the final committed
state is the completed pass, and `mark_unavailable` does propagate the
availability flip into `search_fts` for the movie, show and artist types. -/
theorem c8_upsert_and_reconcile_commit_separately :
    (∀ (p : Bool) (t : String) (items : List RawMovie) (db : MoviesDB),
      items ≠ [] → moviesBatch p t items db ≠ [] →
      movies_pass_commits p t items db =
        [ { db with movies := upsertMany db.movies (moviesBatch p t items db) },
          { movies := mark_unavailable_table (movieSeenKeys items)
                (upsertMany db.movies (moviesBatch p t items db))
            fts := ftsUpsertMany db.fts ((moviesBatch p t items db).map movieFtsRow) },
          process_movies p t items db ] ∧
      (process_movies p t items db).movies
        = mark_unavailable_table (movieSeenKeys items)
            (upsertMany db.movies (moviesBatch p t items db)) ∧
      (process_movies p t items db).fts
        = mark_unavailable_fts "movie" (movieSeenKeys items)
            (ftsUpsertMany db.fts ((moviesBatch p t items db).map movieFtsRow))) ∧
    (∀ (table_name fts_ty : String) (seen : List Nat) (α : Type)
        (tbl : List (TableRow α)) (fts : List FtsRow) (r : FtsRow),
      fts_type_map table_name = some fts_ty → r ∈ fts → r.type = fts_ty →
      r.available = true → r.ratingKey ∉ seen →
      { r with available := false } ∈ (mark_unavailable table_name seen tbl fts).2) := by
  constructor
  · intro p t items db hne hdata
    have hie : items.isEmpty = false := by
      cases items with
      | nil => exact absurd rfl hne
      | cons a rest => rfl
    have hdata2 : buildMoviesData p (if p then [] else availHashes db.movies) t items ≠ [] :=
      hdata
    have hde : (buildMoviesData p (if p then [] else availHashes db.movies) t items).isEmpty
        = false := by
      rcases hbd : buildMoviesData p (if p then [] else availHashes db.movies) t items
        with _ | ⟨a, rest⟩
      · exact absurd hbd hdata2
      · rfl
    have hcomm : movies_pass_commits p t items db =
        [ { db with movies := upsertMany db.movies (moviesBatch p t items db) },
          { movies := mark_unavailable_table (movieSeenKeys items)
                (upsertMany db.movies (moviesBatch p t items db))
            fts := ftsUpsertMany db.fts ((moviesBatch p t items db).map movieFtsRow) },
          { movies := mark_unavailable_table (movieSeenKeys items)
                (upsertMany db.movies (moviesBatch p t items db))
            fts := mark_unavailable_fts "movie" (movieSeenKeys items)
                (ftsUpsertMany db.fts ((moviesBatch p t items db).map movieFtsRow)) } ] := by
      simp only [movies_pass_commits, moviesBatch, hie, hde, Bool.false_eq_true, if_false]
    have hpm : process_movies p t items db =
        { movies := mark_unavailable_table (movieSeenKeys items)
              (upsertMany db.movies (moviesBatch p t items db))
          fts := mark_unavailable_fts "movie" (movieSeenKeys items)
              (ftsUpsertMany db.fts ((moviesBatch p t items db).map movieFtsRow)) } := by
      unfold process_movies
      rw [hcomm]
      rfl
    refine ⟨?_, ?_, ?_⟩
    · rw [hcomm, hpm]
    · rw [hpm]
    · rw [hpm]
  · intro table_name fts_ty seen α tbl fts r hmap hr hty hav hns
    have hsnd : (mark_unavailable table_name seen tbl fts).2
        = mark_unavailable_fts fts_ty seen fts := by
      show (match fts_type_map table_name with
            | some ty2 => mark_unavailable_fts ty2 seen fts
            | none => fts) = mark_unavailable_fts fts_ty seen fts
      rw [hmap]
    rw [hsnd]
    unfold mark_unavailable_fts
    by_cases hs : seen.isEmpty
    · rw [if_pos hs, List.mem_map]
      refine ⟨r, hr, ?_⟩
      rw [if_pos ⟨hty, hav⟩]
    · rw [if_neg hs, List.mem_map]
      refine ⟨r, hr, ?_⟩
      rw [if_pos ⟨hty, hns, hav⟩]

/-- Witness for C8: at the concrete commit-boundary scenario the pass
produces three commits, and a concrete unseen, available shadow-index row of
type `movie` is flipped by the reconciler. -/
theorem c8_separate_commits_witness :
    (movies_pass_commits true "t1" c8items c8db).length = 3 ∧
    ({ type := "movie", ratingKey := 9, title := "x", summary := "", year := none
       available := false } : FtsRow) ∈
      (mark_unavailable "movies" [5] ([] : List MovieRow)
        [{ type := "movie", ratingKey := 9, title := "x", summary := "", year := none
           available := true }]).2 :=
  ⟨by
    rw [(c8_upsert_and_reconcile_commit_separately.1 true "t1" c8items c8db
      (by decide) (by decide)).1]
    rfl,
   c8_upsert_and_reconcile_commit_separately.2 "movies" "movie" [5] MovieCols []
    [{ type := "movie", ratingKey := 9, title := "x", summary := "", year := none
       available := true }]
    { type := "movie", ratingKey := 9, title := "x", summary := "", year := none
      available := true }
    rfl (List.mem_singleton.mpr rfl) rfl rfl (by decide)⟩

theorem c2_empty_seen_total_removal_witness :
    ({ storedRow 1 with available := false } : MovieRow).available = false :=
  c2_empty_seen_total_removal.2 true "t1" c8db { storedRow 1 with available := false }
    (by
      have hpm : (process_movies true "t1" [] c8db).movies
          = [{ storedRow 1 with available := false }] := rfl
      rw [hpm]
      exact List.mem_singleton.mpr rfl)

end PlexSync
